import Mathlib

/-!
Shallow embedding of the rcat command-line utility.

The program is three layers composed linearly:
  - `cli/args.rs`, `cli/output.rs`, `cli/exit.rs`: argument parsing,
    canned messages, and error exit;
  - `app/cmd.rs`: spawning an external program and classifying failures;
  - `app/handler.rs`: running `cat` on the filepaths and flattening the
    result to a single string;
  - `main.rs`: the entry point.

Modelling conventions:
  - Rust `Vec<String>` becomes `List String`.
  - A Rust operation that can panic is modelled with `Option`:
    the slice `vec[1..]` in `tail` panics on an empty vector, so the
    embedded `tail` returns `none` exactly there, and `parse` propagates
    that `none`.
  - The outcome of the operating-system call in `cmd::exec` (spawn error,
    or process exit code with captured output/error bytes) is not a
    function of the arguments alone; it is threaded in explicitly as an
    `ExecOutcome` value over which theorems quantify universally.
  - Captured stdout/stderr are modelled as already-decoded strings; the
    `from_utf8(..).unwrap()` decoding step is outside the claims treated
    here (the spec itself records it as an unrecovered condition).
  - Process exit is modelled by a `MainResult` record holding the exit
    code, the text printed to standard output, and the lines printed to
    standard error.
-/

namespace Rcat

/-- Substring containment, the model of Rust `str::contains` with a
string pattern and of the phrase "message includes ...". -/
def containsSub (s pat : String) : Bool :=
  decide (pat.toList <:+: s.toList)

/-- The model of Rust `str::starts_with` with a string pattern: the
pattern is a prefix of the string. -/
def startsWithSub (s pat : String) : Bool :=
  decide (pat.toList <+: s.toList)

namespace output

/-- From `cli/output.rs`: builds the invalid-options message. -/
def invalid_opts_err (opts : List String) : String :=
  String.join ["Unrecognized option(s): ", String.intercalate ", " opts,
    "\nSee rcat --help"]

/-- From `cli/output.rs`: the not-enough-arguments message. -/
def NO_ARGS_ERR : String := "Not enough arguments!"

/-- From `cli/output.rs`: the usage text (a raw string in the source). -/
def USAGE : String :=
  "USAGE: rcat [OPTIONS] [ARGEMNTS]\n\n  A simple cat program.\n\nEXAMPLES:\n  rcat --help\n  rcat /path/to/file1 /path/to/file2 ...\n\nOPTIONS:\n  -h, --help      Display this help.\n\nARGUMENTS:\n  /path/to/file1  A path to a file.\n  /path/to/file2  A path to another file.\n  ...             Ditto.\n\n"

end output

namespace args

/-- From `cli/args.rs`: the parse error enum. -/
inductive Error where
  | Help : String → Error
  | InvalidOpts : String → Error
  | NoArgs : String → Error
deriving DecidableEq, Repr

/-- From `cli/args.rs`: the parsed configuration record. -/
structure Config where
  filepaths : List String
deriving DecidableEq, Repr

/-- From `cli/args.rs`: constructs a `Config`. -/
def make_config (filepaths : List String) : Config :=
  ⟨filepaths⟩

/-- From `cli/args.rs`: extracts the filepaths from a `Config`. -/
def filepaths (config : Config) : List String :=
  config.filepaths

/-- From `cli/args.rs`: `vec[1..].to_vec()`. The slice panics when the
vector is empty (index 1 exceeds the length); that case is `none`. -/
def tail (vec : List String) : Option (List String) :=
  if 1 ≤ vec.length then some (vec.drop 1) else none

/-- From `cli/args.rs`: does the list contain `-h` or `--help`. -/
def contains_help (args : List String) : Bool :=
  args.contains "-h" || args.contains "--help"

/-- From `cli/args.rs`: retains the arguments that start with a dash but
are neither `-h` nor `--help`, preserving order. -/
def invalid_options (args : List String) : List String :=
  args.filter (fun x => startsWithSub x "-" && x != "-h" && x != "--help")

/-- From `cli/args.rs`: the parser. The early returns of the source are
the branches of the conditional chain, in source order; the panic that
`tail` could raise is propagated as `none`. -/
def parse (args : List String) : Option (Except Error Config) :=
  if args.length < 2 then
    some (Except.error (Error.NoArgs output.NO_ARGS_ERR))
  else if contains_help args then
    some (Except.error (Error.Help output.USAGE))
  else
    let invalid_opts := invalid_options args
    if invalid_opts.length > 0 then
      some (Except.error (Error.InvalidOpts (output.invalid_opts_err invalid_opts)))
    else
      (tail args).map (fun t => Except.ok (make_config t))

end args

namespace cmd

/-- The `std::io::ErrorKind` values distinguished by `cmd::exec`; every
kind other than the two named ones falls into the catch-all arm. -/
inductive SpawnErrorKind where
  | NotFound
  | PermissionDenied
  | OtherKind
deriving DecidableEq, Repr

/-- An operating-system error as seen by `cmd::exec`: its kind and the
text produced by `err.to_string()`. -/
structure OsError where
  kind : SpawnErrorKind
  text : String
deriving DecidableEq, Repr

/-- The outcome of the operating-system call made by `cmd::exec`: either
the spawn itself failed, or the process ran to completion with an exit
code and captured stdout/stderr text. -/
inductive ExecOutcome where
  | spawnErr (e : OsError)
  | exited (code : Nat) (outData : String) (errData : String)
deriving DecidableEq, Repr

/-- From `app/cmd.rs`: the execution error enum. -/
inductive Error where
  | NoProg : String → Error
  | NoFile : String → Error
  | NoPerm : String → Error
  | Other : String → Error
deriving DecidableEq, Repr

/-- From `app/cmd.rs`: the successful execution record. -/
structure Execution where
  stdout : String
deriving DecidableEq, Repr

/-- From `app/cmd.rs`: constructs an `Execution`. -/
def make_execution (stdout : String) : Execution :=
  ⟨stdout⟩

/-- From `app/cmd.rs`: gets the stdout data of an execution. -/
def stdout (execution : Execution) : String :=
  execution.stdout

/-- From `app/cmd.rs`: runs a program and classifies the result.
`world` is the outcome of the underlying operating-system call; the
match structure mirrors the source exactly. -/
def exec (world : ExecOutcome) (prog : String) (args : List String) :
    Except Error Execution :=
  let _ := args
  let p := prog
  match world with
  | ExecOutcome.spawnErr err =>
    match err.kind with
    | SpawnErrorKind.NotFound =>
      Except.error (Error.NoProg ("No `" ++ p ++ "` program found on your machine"))
    | SpawnErrorKind.PermissionDenied =>
      Except.error (Error.NoPerm ("No permission to execute `" ++ p ++ "`"))
    | SpawnErrorKind.OtherKind =>
      Except.error (Error.Other err.text)
  | ExecOutcome.exited code outData errData =>
    if code == 0 then
      Except.ok (make_execution outData)
    else
      if containsSub errData "No such file" then
        Except.error (Error.NoFile errData)
      else if containsSub errData "permission denied" then
        Except.error (Error.NoPerm errData)
      else
        Except.error (Error.Other errData)

end cmd

namespace handler

/-- From `app/handler.rs`: cats the filepaths via `cmd::exec` and
reduces the result to a single string. -/
def run (world : cmd.ExecOutcome) (filepaths : List String) : String :=
  let prog := "cat"
  let args := filepaths
  match cmd.exec world prog args with
  | Except.error (cmd.Error.NoProg msg) => msg
  | Except.error (cmd.Error.NoFile msg) => msg
  | Except.error (cmd.Error.NoPerm msg) => msg
  | Except.error (cmd.Error.Other msg) => msg
  | Except.ok execution => cmd.stdout execution

end handler

/-- The observable effect of one program run: the process exit status,
the text written to standard output, and the lines written to standard
error. -/
structure MainResult where
  exitCode : Nat
  stdoutText : String
  stderrLines : List String
deriving DecidableEq, Repr

/-- From `cli/exit.rs`: prints `Error: {msg}` to standard error and
exits with status 1. -/
def exit_with_err (msg : String) : MainResult :=
  ⟨1, "", ["Error: " ++ msg]⟩

/-- From `main.rs`: parse the raw arguments; on a parse error, exit via
`exit_with_err`; otherwise run the handler, print its result to standard
output, and fall off the end of `main` (exit status 0). A `none` from
`parse` (the modelled panic) propagates. -/
def main (world : cmd.ExecOutcome) (raw_args : List String) :
    Option MainResult :=
  match args.parse raw_args with
  | none => none
  | some (Except.error (args.Error.Help msg)) => some (exit_with_err msg)
  | some (Except.error (args.Error.NoArgs msg)) => some (exit_with_err msg)
  | some (Except.error (args.Error.InvalidOpts msg)) => some (exit_with_err msg)
  | some (Except.ok config) =>
    some ⟨0, handler.run world (args.filepaths config), []⟩

end Rcat

open Rcat

/-! ## Shared helper lemmas -/

/-- A list not containing `-h` nor `--help` fails the `contains_help`
check. -/
theorem contains_help_eq_false_of_not_mem (a : List String)
    (h1 : "-h" ∉ a) (h2 : "--help" ∉ a) : args.contains_help a = false := by
  simp only [args.contains_help, List.contains, Bool.or_eq_false_iff]
  constructor
  · exact (Bool.not_eq_true _).mp (fun hc => h1 (List.elem_iff.mp hc))
  · exact (Bool.not_eq_true _).mp (fun hc => h2 (List.elem_iff.mp hc))

/-- On a list not containing `-h` nor `--help`, the `invalid_options`
filter degenerates to the plain dash filter. -/
theorem invalid_options_eq_filter (a : List String)
    (h1 : "-h" ∉ a) (h2 : "--help" ∉ a) :
    args.invalid_options a = a.filter (fun x => startsWithSub x "-") := by
  apply List.filter_congr
  intro x hx
  have hx1 : (x != "-h") = true := bne_iff_ne.mpr (fun he => h1 (he ▸ hx))
  have hx2 : (x != "--help") = true := bne_iff_ne.mpr (fun he => h2 (he ▸ hx))
  simp [hx1, hx2]

/-! ## The claims -/

/-- C5: for every argument list of length below 2, `parse` fails with
`NoArgs` and the exact message, whatever the content of the list; the
length check precedes the help and invalid-option checks. -/
theorem C5_no_arguments (a : List String) (h : a.length < 2) :
    args.parse a = some (Except.error (args.Error.NoArgs "Not enough arguments!")) := by
  simp [args.parse, h, output.NO_ARGS_ERR]

/-- C5 witness: the single-element list `["-h"]` is rejected as
`NoArgs` even though it contains the help flag. -/
theorem C5_no_arguments_witness :
    args.parse ["-h"] = some (Except.error (args.Error.NoArgs "Not enough arguments!")) :=
  C5_no_arguments ["-h"] (by decide)

/-- C4: for every argument list of length at least 2 that contains `-h`
or `--help` anywhere, `parse` fails with `Help` carrying the canonical
usage text, whatever else the list contains. -/
theorem C4_help_precedence (a : List String) (h2 : 2 ≤ a.length)
    (hh : "-h" ∈ a ∨ "--help" ∈ a) :
    args.parse a = some (Except.error (args.Error.Help output.USAGE)) := by
  have hlen : ¬ a.length < 2 := by omega
  have hch : args.contains_help a = true := by
    rcases hh with h | h
    · simp [args.contains_help, List.contains, List.elem_iff, h]
    · simp [args.contains_help, List.contains, List.elem_iff, h]
  simp [args.parse, hlen, hch]

/-- C4 witness: `["rcat", "-h"]` yields the `Help` error with the usage
text. -/
theorem C4_help_precedence_witness :
    args.parse ["rcat", "-h"] = some (Except.error (args.Error.Help output.USAGE)) :=
  C4_help_precedence ["rcat", "-h"] (by decide) (Or.inl (by decide))

/-- C2: for every argument list of length at least 2 with no help flag
and no element beginning with a dash, `parse` succeeds, the resulting
configuration holds exactly the input list with its first element
removed, and that list of filepaths is non-empty. -/
theorem C2_parse_success (a : List String) (h2 : 2 ≤ a.length)
    (hh : "-h" ∉ a ∧ "--help" ∉ a)
    (hd : ∀ x ∈ a, startsWithSub x "-" = false) :
    args.parse a = some (Except.ok (args.make_config (a.drop 1)))
      ∧ args.filepaths (args.make_config (a.drop 1)) = a.drop 1
      ∧ a.drop 1 ≠ [] := by
  have hlen : ¬ a.length < 2 := by omega
  have hch := contains_help_eq_false_of_not_mem a hh.1 hh.2
  have hio : args.invalid_options a = [] := by
    apply List.filter_eq_nil_iff.mpr
    intro x hx
    simp [hd x hx]
  have ht : args.tail a = some (a.drop 1) := by
    have h1 : 1 ≤ a.length := by omega
    simp [args.tail, h1]
  refine ⟨?_, rfl, ?_⟩
  · simp [args.parse, hlen, hch, hio, ht]
  · have hld : (a.drop 1).length = a.length - 1 := List.length_drop 1 a
    intro hnil
    rw [hnil] at hld
    simp at hld
    omega

/-- C2 witness: scenario A of the spec, `["rcat", "/path/1", "/path/2"]`
parses to the configuration `["/path/1", "/path/2"]`. -/
theorem C2_parse_success_witness :
    args.parse ["rcat", "/path/1", "/path/2"]
      = some (Except.ok (args.make_config ["/path/1", "/path/2"]))
    ∧ args.filepaths (args.make_config ["/path/1", "/path/2"]) = ["/path/1", "/path/2"]
    ∧ (["/path/1", "/path/2"] : List String) ≠ [] :=
  C2_parse_success ["rcat", "/path/1", "/path/2"] (by decide)
    ⟨by decide, by decide⟩ (by decide)

/-- C3: for every argument list of length at least 2 with no help flag
and at least one dash-prefixed token, `parse` fails with `InvalidOpts`,
and the message is exactly the header, the dash-prefixed tokens in
original order joined by a comma and space, a newline, and the see-help
line. -/
theorem C3_invalid_options_error (a : List String) (h2 : 2 ≤ a.length)
    (hh : "-h" ∉ a ∧ "--help" ∉ a)
    (hd : ∃ x ∈ a, startsWithSub x "-" = true) :
    args.parse a = some (Except.error (args.Error.InvalidOpts
      ("Unrecognized option(s): "
        ++ String.intercalate ", " (a.filter (fun x => startsWithSub x "-"))
        ++ "\nSee rcat --help"))) := by
  have hlen : ¬ a.length < 2 := by omega
  have hch := contains_help_eq_false_of_not_mem a hh.1 hh.2
  have hio := invalid_options_eq_filter a hh.1 hh.2
  have hne : (a.filter (fun x => startsWithSub x "-")).length > 0 := by
    rcases hd with ⟨x, hxa, hxs⟩
    have hm : x ∈ a.filter (fun x => startsWithSub x "-") := List.mem_filter.mpr ⟨hxa, hxs⟩
    exact List.length_pos.mpr (List.ne_nil_of_mem hm)
  have hjoin : ∀ s t u : String, String.join [s, t, u] = s ++ t ++ u := by
    intro s t u
    simp [String.join]
  simp [args.parse, hlen, hch, hio, hne, output.invalid_opts_err, hjoin]

/-- C3 witness: scenario D of the spec, `["rcat", "/path/1", "-e"]`
yields `InvalidOpts` with the exact message. -/
theorem C3_invalid_options_error_witness :
    args.parse ["rcat", "/path/1", "-e"] = some (Except.error (args.Error.InvalidOpts
      "Unrecognized option(s): -e\nSee rcat --help")) := by
  have h := C3_invalid_options_error ["rcat", "/path/1", "-e"] (by decide)
    ⟨by decide, by decide⟩ ⟨"-e", by decide, by decide⟩
  have he : List.filter (fun x => startsWithSub x "-") ["rcat", "/path/1", "-e"]
      = ["-e"] := by decide
  rw [he] at h
  exact h

/-- C6: when the process starts and exits with a non-zero status, the
classification depends only on the captured standard-error text: the
"No such file" substring yields `NoFile`, otherwise "permission denied"
yields `NoPerm`, otherwise `Other`; the full text is the message in all
three cases. -/
theorem C6_nonzero_exit_classification (prog : String) (argv : List String)
    (code : Nat) (outData errData : String) (hcode : code ≠ 0) :
    (containsSub errData "No such file" = true →
      cmd.exec (cmd.ExecOutcome.exited code outData errData) prog argv
        = Except.error (cmd.Error.NoFile errData))
    ∧ (containsSub errData "No such file" = false →
       containsSub errData "permission denied" = true →
      cmd.exec (cmd.ExecOutcome.exited code outData errData) prog argv
        = Except.error (cmd.Error.NoPerm errData))
    ∧ (containsSub errData "No such file" = false →
       containsSub errData "permission denied" = false →
      cmd.exec (cmd.ExecOutcome.exited code outData errData) prog argv
        = Except.error (cmd.Error.Other errData)) := by
  have hc : (code == 0) = false := by simp [hcode]
  refine ⟨fun h1 => ?_, fun h1 h2 => ?_, fun h1 h2 => ?_⟩ <;>
    simp [cmd.exec, hc, h1]
  · simp [h2]
  · simp [h2]

/-- C6 witness: scenario F of the spec, exit code 1 with the usual cat
message for a missing file is classified as `NoFile`. -/
theorem C6_nonzero_exit_classification_witness :
    cmd.exec (cmd.ExecOutcome.exited 1 "" "cat: /nope: No such file or directory")
      "cat" ["/nope"]
      = Except.error (cmd.Error.NoFile "cat: /nope: No such file or directory") :=
  (C6_nonzero_exit_classification "cat" ["/nope"] 1 ""
    "cat: /nope: No such file or directory" (by decide)).1 (by decide)

/-- C7: when the spawn itself fails, the classification follows the
operating-system error kind: a not-found kind yields `NoProg` and a
permission kind yields `NoPerm`, both with a message containing the
program name; any other kind yields `Other` carrying the text of the
underlying error. -/
theorem C7_spawn_error_classification (prog : String) (argv : List String)
    (e : cmd.OsError) :
    (e.kind = cmd.SpawnErrorKind.NotFound →
      cmd.exec (cmd.ExecOutcome.spawnErr e) prog argv
        = Except.error (cmd.Error.NoProg
            ("No `" ++ prog ++ "` program found on your machine"))
      ∧ containsSub ("No `" ++ prog ++ "` program found on your machine") prog = true)
    ∧ (e.kind = cmd.SpawnErrorKind.PermissionDenied →
      cmd.exec (cmd.ExecOutcome.spawnErr e) prog argv
        = Except.error (cmd.Error.NoPerm ("No permission to execute `" ++ prog ++ "`"))
      ∧ containsSub ("No permission to execute `" ++ prog ++ "`") prog = true)
    ∧ (e.kind = cmd.SpawnErrorKind.OtherKind →
      cmd.exec (cmd.ExecOutcome.spawnErr e) prog argv
        = Except.error (cmd.Error.Other e.text)) := by
  have hsub : ∀ s t : String, containsSub (s ++ prog ++ t) prog = true := by
    intro s t
    have hinf : prog.toList <:+: (s ++ prog ++ t).toList := by
      refine ⟨s.toList, t.toList, ?_⟩
      simp [String.toList, String.data_append]
    simp only [containsSub, decide_eq_true_eq]
    exact hinf
  refine ⟨fun h1 => ⟨?_, hsub "No `" "` program found on your machine"⟩,
          fun h1 => ⟨?_, hsub "No permission to execute `" "`"⟩,
          fun h1 => ?_⟩ <;>
    simp [cmd.exec, h1]

/-- C7 witness: scenario E of the spec, a not-found spawn error for
`cat` yields `NoProg` with a message that contains the program name. -/
theorem C7_spawn_error_classification_witness :
    cmd.exec (cmd.ExecOutcome.spawnErr ⟨cmd.SpawnErrorKind.NotFound, "os error 2"⟩)
      "cat" ["/x"]
      = Except.error (cmd.Error.NoProg "No `cat` program found on your machine")
    ∧ containsSub "No `cat` program found on your machine" "cat" = true :=
  (C7_spawn_error_classification "cat" ["/x"]
    ⟨cmd.SpawnErrorKind.NotFound, "os error 2"⟩).1 rfl

/-- C8: `run` reduces the single invocation of `cmd.exec` with program
`cat` and the given filepaths: the captured standard output verbatim on
success, and the message string on every one of the four error
variants, independently of the variant tag. -/
theorem C8_handler_run (world : cmd.ExecOutcome) (fps : List String) :
    (∀ execution, cmd.exec world "cat" fps = Except.ok execution →
      handler.run world fps = cmd.stdout execution)
    ∧ (∀ msg,
        (cmd.exec world "cat" fps = Except.error (cmd.Error.NoProg msg)
         ∨ cmd.exec world "cat" fps = Except.error (cmd.Error.NoFile msg)
         ∨ cmd.exec world "cat" fps = Except.error (cmd.Error.NoPerm msg)
         ∨ cmd.exec world "cat" fps = Except.error (cmd.Error.Other msg)) →
      handler.run world fps = msg) := by
  constructor
  · intro execution h
    simp [handler.run, h]
  · intro msg h
    rcases h with h | h | h | h <;> simp [handler.run, h]

/-- C8 witness: a zero-exit run with captured output `hello` makes
`run` return `hello` verbatim. -/
theorem C8_handler_run_witness :
    handler.run (cmd.ExecOutcome.exited 0 "hello" "") ["/a"] = "hello" :=
  (C8_handler_run (cmd.ExecOutcome.exited 0 "hello" "") ["/a"]).1 ⟨"hello"⟩ rfl

/-- C9: extracting the filepaths from a configuration built by
`make_config` returns the original list unchanged. -/
theorem C9_config_roundtrip (v : List String) :
    args.filepaths (args.make_config v) = v := rfl

/-- C10: `parse` is total and never reaches the panicking slice inside
`tail`: in the model, where the panic is the `none` outcome, `parse`
returns `some` result on every input list, including the empty one. -/
theorem C10_parse_total (a : List String) : (args.parse a).isSome = true := by
  unfold args.parse
  by_cases h2 : a.length < 2
  · simp [h2]
  · simp only [h2, if_false]
    by_cases hh : args.contains_help a
    · simp [hh]
    · simp only [hh, if_false]
      by_cases hi : (args.invalid_options a).length > 0
      · simp [hi]
      · simp only [hi, if_false]
        have h1 : 1 ≤ a.length := by omega
        simp [args.tail, h1]

/-- C1 counterexample: a run where the external process fails (exit
code 1 with a `No such file` message, classified as a `NoFile`
execution error) nevertheless terminates with exit status 0, writes the
message to standard output, and writes nothing to standard error —
refuting the claim that every execution error exits with status 1 and a
line on standard error. -/
theorem C1_exec_error_counterexample :
    cmd.exec (cmd.ExecOutcome.exited 1 "" "cat: /nope: No such file or directory")
      "cat" ["/nope"]
      = Except.error (cmd.Error.NoFile "cat: /nope: No such file or directory")
    ∧ main (cmd.ExecOutcome.exited 1 "" "cat: /nope: No such file or directory")
      ["rcat", "/nope"]
      = some ⟨0, "cat: /nope: No such file or directory", []⟩ := by
  constructor
  · rfl
  · rfl

/-- C1 amended: the process exit status is 1, with the single line
`Error: ` plus the message on standard error and nothing on standard
output, exactly on parse errors; on every successful parse the exit
status is 0 with nothing on standard error, and the handler result -
the captured content on success or the execution error message - is
written to standard output. -/
theorem C1_exit_status_amended (world : cmd.ExecOutcome) (raw : List String) :
    (∀ msg, (args.parse raw = some (Except.error (args.Error.Help msg))
      ∨ args.parse raw = some (Except.error (args.Error.NoArgs msg))
      ∨ args.parse raw = some (Except.error (args.Error.InvalidOpts msg))) →
      main world raw = some ⟨1, "", ["Error: " ++ msg]⟩)
    ∧ (∀ config, args.parse raw = some (Except.ok config) →
      main world raw = some ⟨0, handler.run world (args.filepaths config), []⟩) := by
  constructor
  · intro msg h
    rcases h with h | h | h <;> simp [main, h, exit_with_err]
  · intro config h
    simp [main, h]

/-- C1 witness: `["rcat"]` exits with status 1 and the `Error: ` line on
standard error, and a failing cat run on `["rcat", "/nope"]` exits with
status 0 and the error message on standard output. -/
theorem C1_exit_status_amended_witness :
    main (cmd.ExecOutcome.exited 0 "" "") ["rcat"]
      = some ⟨1, "", ["Error: Not enough arguments!"]⟩
    ∧ main (cmd.ExecOutcome.exited 1 "" "boom") ["rcat", "/nope"]
      = some ⟨0, "boom", []⟩ := by
  constructor
  · exact (C1_exit_status_amended (cmd.ExecOutcome.exited 0 "" "") ["rcat"]).1
      "Not enough arguments!" (Or.inr (Or.inl rfl))
  · exact (C1_exit_status_amended (cmd.ExecOutcome.exited 1 "" "boom")
      ["rcat", "/nope"]).2 (args.make_config ["/nope"]) rfl
